import Mathlib

/-!
Verification development for `src/electron/MCQHelper.ts` (class `MCQHelper`).

The development shallowly embeds the MCQ helper:

* the answer-extraction step of `analyzeMCQ` (lines 154–160 of the source),
* the full `analyzeMCQ` control flow (configuration check, screenshot file
  read, Gemini request, response validation, reply handling), with the
  external collaborators (config store, filesystem, HTTP transport) modelled
  as an explicit environment, and thrown exceptions modelled as `Except`
  values that the function's `try`/`catch` turns into `none`,
* the overlay lifecycle (`showAnswerOverlay`, `hideOverlay`, the auto-dismiss
  `setTimeout` callback, `cleanup`) as transitions on an explicit `World`
  state that records every overlay surface ever created, which of them have
  been destroyed, the `overlayWindow` reference, and the pending timers,
* the top-level orchestration `captureMCQAndShowAnswer`.

Machine strings are `String`, JS `null`/`undefined` is `Option`, and a JS
exception crossing a collaborator boundary is an `Except.error`.
-/

set_option maxRecDepth 100000

namespace MCQHelper

/-! ## Answer extraction (`analyzeMCQ`, lines 158–160)

The source extracts the answer with

  `const match = responseText.match(/[abcdABCD1234]/);`
  `return match ? match[0].toLowerCase() : null;`

i.e. it scans `responseText` for the first character in the class
`[abcdABCD1234]` and lowercases it; there is no match otherwise. -/

/-- The character class of the regex `/[abcdABCD1234]/`. -/
def answerClass : List Char :=
  ['a', 'b', 'c', 'd', 'A', 'B', 'C', 'D', '1', '2', '3', '4']

/-- Membership test for the regex character class `[abcdABCD1234]`. -/
def isAnswerChar (c : Char) : Bool :=
  answerClass.contains c

/-- `responseText.match(/[abcdABCD1234]/)`: the first character of the text
that lies in the class, if any (a regex with no alternatives longer than one
character matches at the earliest position, i.e. the first such character). -/
def jsMatchAnswerClass (s : String) : Option Char :=
  s.data.find? isAnswerChar

/-- Lines 159–160 of the source: extract the first character in the class
`[abcdABCD1234]` from the reply and lowercase it (`match[0].toLowerCase()`,
which on the one-character match coincides with ASCII lowercasing);
`null` when there is no match. -/
def extractAnswer (responseText : String) : Option String :=
  match jsMatchAnswerClass responseText with
  | some c => some (String.singleton c.toLower)
  | none => none

/-! ## JS string trim

`responseText = responseData.candidates[0].content.parts[0].text.trim()`
(line 151).  JS `trim` strips whitespace from both ends; it is embedded here
over the character list so that it evaluates by kernel reduction. -/

/-- JS `String.prototype.trim`: drop whitespace from both ends. -/
def jsTrim (s : String) : String :=
  ⟨((s.data.dropWhile Char.isWhitespace).reverse.dropWhile Char.isWhitespace).reverse⟩

/-! ## The Gemini request (`analyzeMCQ`, lines 105–142) -/

/-- The fixed instructional prompt of `analyzeMCQ` (lines 105–115), a template
literal with a leading and a trailing newline. -/
def mcqPrompt : String :=
  "\nYou are an expert at analyzing multiple choice questions (MCQs). \n\nAnalyze this screenshot and:\n1. Look for any multiple choice question with options like a), b), c), d) or A), B), C), D) or 1), 2), 3), 4)\n2. If you find an MCQ, provide the correct answer\n3. Respond ONLY with the answer letter/number (like \"b\" or \"B\" or \"2\")\n4. If no MCQ is found, respond with \"NO_MCQ\"\n\nImportant: Your response should be EXACTLY one character (the answer) or \"NO_MCQ\". Nothing else.\n"

/-- `inlineData` of a request part: mime type and base64 payload. -/
structure InlineData where
  mimeType : String
  data : String
deriving Repr, DecidableEq

/-- A part of a `GeminiMessage`: optional text, optional inline data. -/
structure GeminiPart where
  text : Option String
  inlineData : Option InlineData
deriving Repr, DecidableEq

/-- The `GeminiMessage` interface of the source (lines 7–16). -/
structure GeminiMessage where
  role : String
  parts : List GeminiPart
deriving Repr, DecidableEq

/-- The `generationConfig` of the request (lines 137–140).  The source sets
`temperature: 0.1` and `maxOutputTokens: 50`; the temperature is recorded in
tenths to keep the embedding over the integers. -/
structure GenerationConfig where
  temperatureTenths : Nat
  maxOutputTokens : Nat
deriving Repr, DecidableEq

/-- The JSON body posted to the Gemini endpoint (lines 133–142). -/
structure GeminiRequest where
  contents : List GeminiMessage
  generationConfig : GenerationConfig
deriving Repr, DecidableEq

/-- Lines 118–141: the single-turn multimodal request built from the prompt
and the base64 screenshot data. -/
def buildGeminiRequest (screenshotData : String) : GeminiRequest :=
  { contents :=
      [{ role := "user",
         parts :=
           [{ text := some mcqPrompt, inlineData := none },
            { text := none,
              inlineData := some { mimeType := "image/png", data := screenshotData } }] }],
    generationConfig := { temperatureTenths := 1, maxOutputTokens := 50 } }

/-! ## The Gemini response (`GeminiResponse`, lines 18–27) -/

/-- One part of a candidate's content: generated text. -/
structure GeminiContentPart where
  text : String
deriving Repr, DecidableEq

/-- A candidate's `content`: a list of parts. -/
structure GeminiContent where
  parts : List GeminiContentPart
deriving Repr, DecidableEq

/-- One candidate of a `GeminiResponse` (lines 19–26). -/
structure GeminiCandidate where
  content : GeminiContent
  finishReason : String
deriving Repr, DecidableEq

/-- The `GeminiResponse` interface of the source (lines 18–27). -/
structure GeminiResponse where
  candidates : List GeminiCandidate
deriving Repr, DecidableEq

/-! ## `analyzeMCQ` (lines 92–166)

The collaborators `analyzeMCQ` calls are modelled as an environment:

* `configHelper.loadConfig()` supplies the configuration,
* `fs.readFileSync(screenshotPath).toString('base64')` (line 103) may throw,
  modelled as `Except Unit String`,
* `axios.default.post(...)` (lines 133–142) may throw (network error,
  non-success HTTP status), modelled as `Except Unit GeminiResponse` whose
  `ok` value is `response.data`.

The function body is wrapped in `try { ... } catch (error) { return null; }`
(lines 93, 162–165), so every thrown exception is embedded as the clean
result `none`; a JS `TypeError` from `parts[0].text` on an empty `parts`
list is caught by the same handler. -/

/-- The configuration read by `analyzeMCQ` (line 94); only `apiKey` is used. -/
structure Config where
  apiKey : Option String
deriving Repr, DecidableEq

/-- The guard `if (!config.apiKey)` (line 96): JS falsiness of the credential,
true when the key is `undefined`/`null` or the empty string. -/
def apiKeyFalsy (config : Config) : Bool :=
  match config.apiKey with
  | none => true
  | some s => s = ""

/-- Environment of one `analyzeMCQ` call: configuration plus the outcomes of
the two fallible collaborators (file read, HTTP transport). -/
structure AnalyzeEnv where
  config : Config
  fileRead : Except Unit String
  network : Except Unit GeminiResponse
deriving Repr

/-- Observable outcome of one `analyzeMCQ` call: the returned value and the
side effects performed.  `networkCalled` records whether `axios.default.post`
was reached; `consoleReply` records the reply text printed by
`console.log("Gemini response:", responseText)` (line 152); `fileWrites`
records every file written during the call — the source contains no file
write anywhere in `analyzeMCQ`, so the field makes that absence expressible. -/
structure AnalyzeResult where
  answer : Option String
  networkCalled : Bool
  consoleReply : Option String
  fileWrites : List (String × String)
deriving Repr, DecidableEq

/-- Lines 92–166 of the source: check the credential, read the screenshot,
post the request, validate the candidate list, trim the reply, recognize the
`NO_MCQ` sentinel, and otherwise extract the answer character; every failure
path (missing key, thrown read, thrown post, empty candidates, empty parts)
yields `none` without raising. -/
def analyzeMCQ (env : AnalyzeEnv) : AnalyzeResult :=
  if apiKeyFalsy env.config then
    { answer := none, networkCalled := false, consoleReply := none, fileWrites := [] }
  else
    match env.fileRead with
    | .error _ =>
      { answer := none, networkCalled := false, consoleReply := none, fileWrites := [] }
    | .ok _screenshotData =>
      match env.network with
      | .error _ =>
        { answer := none, networkCalled := true, consoleReply := none, fileWrites := [] }
      | .ok responseData =>
        match responseData.candidates with
        | [] =>
          { answer := none, networkCalled := true, consoleReply := none, fileWrites := [] }
        | cand :: _ =>
          match cand.content.parts with
          | [] =>
            { answer := none, networkCalled := true, consoleReply := none, fileWrites := [] }
          | part :: _ =>
            let responseText := jsTrim part.text
            if responseText = "NO_MCQ" then
              { answer := none, networkCalled := true, consoleReply := some responseText,
                fileWrites := [] }
            else
              { answer := extractAnswer responseText, networkCalled := true,
                consoleReply := some responseText, fileWrites := [] }

/-- A response whose single candidate's single part carries `text`. -/
def replyResponse (text : String) : GeminiResponse :=
  { candidates := [{ content := { parts := [{ text := text }] }, finishReason := "STOP" }] }

/-- An environment with a valid key, a successful file read, and reply `text`. -/
def happyEnv (text : String) : AnalyzeEnv :=
  { config := { apiKey := some "k" }, fileRead := .ok "data", network := .ok (replyResponse text) }

/-! ## The overlay document (`showAnswerOverlay`, lines 234–349)

The `overlayHTML` template literal, split at its single interpolation
`${answer.toUpperCase()}` (line 345).  Braces, apostrophes, backticks and
dollar signs of the document are written with `\x` escapes. -/

/-- The overlay document up to the interpolation point inside
`<div class="answer">` (lines 234–345). -/
def overlayHTMLPre : String :=
  "\n<!DOCTYPE html>\n<html>\n<head>\n  <style>\n    body \x7b\n      margin: 0;\n      padding: 0;\n      font-family: \x27Segoe UI\x27, Tahoma, Geneva, Verdana, sans-serif;\n      background: rgba(128, 128, 128, 0.1); /* Very light gray transparent background */\n      display: flex;\n      align-items: center;\n      justify-content: center;\n      height: 100vh;\n      /* Additional protection against screen capture */\n      -webkit-user-select: none;\n      -moz-user-select: none;\n      -ms-user-select: none;\n      user-select: none;\n      -webkit-touch-callout: none;\n      -webkit-tap-highlight-color: transparent;\n    \x7d\n    .answer \x7b\n      /* Make it look like a system-level overlay */\n      background: rgba(128, 128, 128, 0.15); /* Light gray that appears as system UI */\n      color: rgba(64, 64, 64, 0.9); /* Subtle dark text */\n      font-size: 16px;\n      font-weight: normal;\n      padding: 8px 12px;\n      border-radius: 4px;\n      border: 1px solid rgba(128, 128, 128, 0.2);\n      backdrop-filter: blur(1px);\n      -webkit-backdrop-filter: blur(1px);\n      /* Additional screen capture protection */\n      -webkit-user-select: none;\n      -moz-user-select: none;\n      -ms-user-select: none;\n      user-select: none;\n      pointer-events: none;\n    \x7d\n    \n    /* Hide from screenshot tools */\n    @media screen and (min-resolution: 192dpi) \x7b\n      .answer \x7b\n        opacity: 0.8;\n      \x7d\n    \x7d\n    \n    /* Additional protection */\n    .answer::before \x7b\n      content: \x27\x27;\n      position: absolute;\n      top: -10px;\n      left: -10px;\n      right: -10px;\n      bottom: -10px;\n      background: transparent;\n      pointer-events: none;\n    \x7d\n  </style>\n  <script>\n    // Additional protection against screenshot detection\n    document.addEventListener(\x27DOMContentLoaded\x27, function() \x7b\n      // Disable right-click\n      document.addEventListener(\x27contextmenu\x27, function(e) \x7b\n        e.preventDefault();\n        return false;\n      \x7d);\n      \n      // Disable text selection\n      document.addEventListener(\x27selectstart\x27, function(e) \x7b\n        e.preventDefault();\n        return false;\n      \x7d);\n      \n      // Disable drag\n      document.addEventListener(\x27dragstart\x27, function(e) \x7b\n        e.preventDefault();\n        return false;\n      \x7d);\n      \n      // Monitor for screenshot attempts (basic detection)\n      document.addEventListener(\x27keydown\x27, function(e) \x7b\n        // Hide on common screenshot shortcuts\n        if ((e.ctrlKey && e.shiftKey && e.key === \x27S\x27) || \n            (e.metaKey && e.shiftKey && e.key === \x274\x27) ||\n            (e.key === \x27PrintScreen\x27)) \x7b\n          document.body.style.opacity = \x270\x27;\n          setTimeout(() => \x7b\n            document.body.style.opacity = \x271\x27;\n          \x7d, 1000);\n        \x7d\n      \x7d);\n      \n      // Make the overlay blend in more by changing appearance periodically\n      let blendCounter = 0;\n      setInterval(() => \x7b\n        const answerElement = document.querySelector(\x27.answer\x27);\n        if (answerElement) \x7b\n          blendCounter++;\n          // Subtle variations to make it look more like system UI\n          const opacity = 0.7 + (Math.sin(blendCounter * 0.1) * 0.1);\n          const bgOpacity = 0.05 + (Math.sin(blendCounter * 0.15) * 0.02);\n          answerElement.style.opacity = opacity.toString();\n          answerElement.style.backgroundColor = \x60rgba(128, 128, 128, \x24\x7bbgOpacity\x7d)\x60;\n        \x7d\n      \x7d, 500);\n    \x7d);\n  </script>\n</head>\n<body>\n  <div class=\"answer\">"

/-- The overlay document after the interpolation point (lines 345–349). -/
def overlayHTMLSuf : String :=
  "</div>\n</body>\n</html>\n\n"

/-- JS `String.prototype.toUpperCase` on the ASCII strings the helper passes
around, embedded over the character list so that it evaluates by kernel
reduction. -/
def jsToUpper (s : String) : String :=
  ⟨s.data.map Char.toUpper⟩

/-- Line 345 of the source: the document loaded into the overlay window embeds
`answer.toUpperCase()` between the answer-div tags. -/
def overlayHTML (answer : String) : String :=
  overlayHTMLPre ++ jsToUpper answer ++ overlayHTMLSuf

/-- Drop everything up to and including the first occurrence of `marker`;
`none` when `marker` does not occur. -/
def dropThroughMarker (marker : List Char) : List Char → Option (List Char)
  | [] => none
  | c :: rest =>
    if marker.isPrefixOf (c :: rest) then some ((c :: rest).drop marker.length)
    else dropThroughMarker marker rest

/-- Take characters until the first occurrence of `marker`. -/
def takeUntilMarker (marker : List Char) : List Char → List Char
  | [] => []
  | c :: rest =>
    if marker.isPrefixOf (c :: rest) then []
    else c :: takeUntilMarker marker rest

/-- The text rendered inside the overlay's answer div: what stands between
`<div class="answer">` and the following `</div>` in the loaded document. -/
def renderedAnswer (html : String) : Option String :=
  match dropThroughMarker "<div class=\"answer\">".data html.data with
  | some rest => some ⟨takeUntilMarker "</div>".data rest⟩
  | none => none

/-! ## Overlay lifecycle state (`MCQHelper` class state, lines 29–35, 171–402)

The mutable state of one `MCQHelper` instance together with the Electron
window system is embedded as a `World`:

* `main` abstracts the main application window found by `getMainWindow`
  (lines 389–395): `none` when no such window exists, `some v` when it exists
  with visibility `v`,
* overlay `BrowserWindow`s are identified by consecutive numeric ids;
  `created` records every overlay window ever constructed (line 180) with the
  document loaded into it (line 351), `destroyed` records the ids that have
  been closed (line 380),
* `overlayWindow` is the class field `this.overlayWindow` (line 30),
* `timers` records the pending auto-dismiss callbacks armed at line 366,
  tagged by the id of the overlay window whose `showAnswerOverlay` call armed
  them.  The callback itself is `() => this.hideOverlay()`: it captures no
  window, only `this`. -/

/-- One overlay `BrowserWindow`: its id and the document loaded into it. -/
structure OverlaySurface where
  id : Nat
  html : String
deriving Repr, DecidableEq

/-- The mutable state the MCQ helper acts on. -/
structure World where
  main : Option Bool
  nextId : Nat
  created : List OverlaySurface
  destroyed : List Nat
  overlayWindow : Option Nat
  timers : List Nat
deriving Repr, DecidableEq

/-- The state at helper construction (lines 33–35): no overlay ever created,
`this.overlayWindow = null`, main window present and visible. -/
def initialWorld : World :=
  { main := some true, nextId := 0, created := [], destroyed := [],
    overlayWindow := none, timers := [] }

/-- The fixed settling delay before capture (line 58), in milliseconds. -/
def settleDelayMs : Nat := 500

/-- The auto-dismiss delay of the overlay (line 368), in milliseconds. -/
def autoDismissDelayMs : Nat := 3000

/-- Lines 378–384 of the source:

  `if (this.overlayWindow && !this.overlayWindow.isDestroyed()) {`
  `  this.overlayWindow.close();`
  `  this.overlayWindow = null;`
  `}`

No-op when the reference is `null` or the referenced window is already
destroyed; otherwise close the window and clear the reference. -/
def hideOverlay (w : World) : World :=
  match w.overlayWindow with
  | none => w
  | some i =>
    if i ∈ w.destroyed then w
    else { w with destroyed := i :: w.destroyed, overlayWindow := none }

/-- Lines 171–373 of the source, `showAnswerOverlay(answer)`: first
`this.hideOverlay()` (line 174), then construct a fresh `BrowserWindow`
(line 180), load `overlayHTML` with the uppercased answer interpolated
(lines 345, 351), store it in `this.overlayWindow`, and arm the auto-dismiss
`setTimeout(() => this.hideOverlay(), 3000)` (lines 366–368).  The body's
`try`/`catch` (lines 172, 370–372) never fires in this embedding because the
collaborators it guards (window construction, content load) are not fallible
here. -/
def showAnswerOverlay (w : World) (answer : String) : World :=
  let w1 := hideOverlay w
  { w1 with
    nextId := w1.nextId + 1,
    created := w1.created ++ [{ id := w1.nextId, html := overlayHTML answer }],
    overlayWindow := some w1.nextId,
    timers := w1.timers ++ [w1.nextId] }

/-- Firing the pending auto-dismiss timer tagged `k`: the armed callback is
`() => this.hideOverlay()` (line 367), so firing runs `hideOverlay` on the
current state whatever `k` is; the timer is then spent.  No-op when no such
timer is pending. -/
def fireTimer (w : World) (k : Nat) : World :=
  if k ∈ w.timers then
    let w1 := hideOverlay w
    { w1 with timers := w1.timers.erase k }
  else w

/-- Lines 400–402 of the source: `cleanup()` is exactly `this.hideOverlay()`. -/
def cleanup (w : World) : World :=
  hideOverlay w

/-- The overlay windows that currently exist (created and not closed). -/
def liveSurfaces (w : World) : List OverlaySurface :=
  w.created.filter (fun s => decide (s.id ∉ w.destroyed))

/-- How many overlay windows currently exist. -/
def liveCount (w : World) : Nat :=
  (liveSurfaces w).length

/-- Whether the overlay window with id `i` currently exists. -/
def isLive (w : World) (i : Nat) : Bool :=
  decide (i ∈ (liveSurfaces w).map OverlaySurface.id)

/-- The document held by the window `this.overlayWindow` points to, if any. -/
def currentContent (w : World) : Option String :=
  match w.overlayWindow with
  | none => none
  | some i => (w.created.find? (fun s => s.id == i)).map OverlaySurface.html

/-! ## The capture cycle (`captureMCQAndShowAnswer`, lines 40–87) -/

/-- Environment of one capture cycle: the outcome of the screenshot
collaborator `this.screenshotHelper.takeScreenshot` (lines 61–64), which may
throw, and the environment of the embedded `analyzeMCQ` call. -/
structure CycleEnv where
  screenshot : Except Unit String
  analyzeEnv : AnalyzeEnv
deriving Repr

/-- Observable outcome of one capture cycle: the final state, the answers
passed to `showAnswerOverlay` during the cycle, and whether the top-level
`catch` (lines 84–86) fired. -/
structure CycleOut where
  world : World
  shown : List String
  caughtError : Bool
deriving Repr, DecidableEq

/-- Lines 40–87 of the source: hide the main window when visible (recording
the prior state), hide any existing overlay, wait the settling delay, take
the screenshot, analyze it, show the overlay only when an answer was
returned (lines 71–77), then restore the main window when it had been
visible.  A screenshot failure jumps to the top-level `catch`, which only
logs (lines 84–86): nothing after the throwing step runs. -/
def captureMCQAndShowAnswer (w : World) (env : CycleEnv) : CycleOut :=
  let wasMainWindowVisible := w.main = some true
  let w1 := if wasMainWindowVisible then { w with main := some false } else w
  let w2 := hideOverlay w1
  match env.screenshot with
  | .error _ => { world := w2, shown := [], caughtError := true }
  | .ok _screenshotPath =>
    let result := analyzeMCQ env.analyzeEnv
    let afterShow : World × List String :=
      match result.answer with
      | some answer => (showAnswerOverlay w2 answer, [answer])
      | none => (w2, [])
    let w3 := afterShow.1
    let w4 := if wasMainWindowVisible then { w3 with main := some true } else w3
    { world := w4, shown := afterShow.2, caughtError := false }

/-! ## Operation sequences on the helper state -/

/-- The public operations that touch the overlay singleton, plus the timer
firings the event loop performs. -/
inductive Op where
  | showAnswer (content : String)
  | hide
  | fire (k : Nat)
  | cycle (env : CycleEnv)

/-- Apply one operation to the state. -/
def applyOp (w : World) : Op → World
  | .showAnswer content => showAnswerOverlay w content
  | .hide => hideOverlay w
  | .fire k => fireTimer w k
  | .cycle env => (captureMCQAndShowAnswer w env).world

/-- Run a sequence of operations from a state. -/
def runOps (w : World) (ops : List Op) : World :=
  ops.foldl applyOp w

/-- The reply text printed by `console.log("Gemini response:", responseText)`
(line 152) when control reaches that line, written out over the same guards
as `analyzeMCQ`: `none` exactly when no reply is received (missing key,
thrown read or post, empty candidate or part list). -/
def receivedReply (env : AnalyzeEnv) : Option String :=
  if apiKeyFalsy env.config then none
  else
    match env.fileRead with
    | .error _ => none
    | .ok _ =>
      match env.network with
      | .error _ => none
      | .ok responseData =>
        match responseData.candidates with
        | [] => none
        | cand :: _ =>
          match cand.content.parts with
          | [] => none
          | part :: _ => some (jsTrim part.text)

/-- An environment whose configuration has no API key at all. -/
def noKeyEnv : AnalyzeEnv :=
  { config := { apiKey := none }, fileRead := .ok "ZGF0YQ==",
    network := .ok (replyResponse "B") }

/-- A cycle environment with a successful screenshot but no API key. -/
def noKeyCycleEnv : CycleEnv :=
  { screenshot := .ok "/tmp/screenshot.png", analyzeEnv := noKeyEnv }

/-- An environment whose HTTP post throws (transport or service error). -/
def errNetEnv : AnalyzeEnv :=
  { config := { apiKey := some "k" }, fileRead := .ok "ZGF0YQ==",
    network := .error () }

/-- An environment whose response carries an empty candidate list. -/
def emptyCandEnv : AnalyzeEnv :=
  { config := { apiKey := some "k" }, fileRead := .ok "ZGF0YQ==",
    network := .ok { candidates := [] } }

/-- A cycle environment whose screenshot collaborator throws. -/
def errShotEnv : CycleEnv :=
  { screenshot := .error (),
    analyzeEnv := { config := { apiKey := some "k" }, fileRead := .ok "ZGF0YQ==",
                    network := .ok (replyResponse "B") } }

/-- The state after two consecutive `showAnswerOverlay` calls from the
initial state: surface 0 (content "a") has been replaced by surface 1
(content "b"), while the auto-dismiss timer armed by the first call is still
pending — the stale-timer scenario. -/
def staleWorld : World :=
  showAnswerOverlay (showAnswerOverlay initialWorld "a") "b"

/-! ## Well-formedness of reachable states -/

/-- Invariant of the states the helper can reach: every recorded id is below
`nextId`, created ids are distinct, and every overlay window that still
exists is the one `this.overlayWindow` references. -/
structure WF (w : World) : Prop where
  created_lt : ∀ s ∈ w.created, s.id < w.nextId
  destroyed_lt : ∀ i ∈ w.destroyed, i < w.nextId
  ref_lt : ∀ i, w.overlayWindow = some i → i < w.nextId
  ids_nodup : (w.created.map OverlaySurface.id).Nodup
  live_ref : ∀ s ∈ w.created, s.id ∉ w.destroyed → w.overlayWindow = some s.id

theorem WF_initialWorld : WF initialWorld := by
  constructor <;> simp [initialWorld]

/-- Case analysis of `hideOverlay`: either the guard fails (`null` reference,
or reference to an already-destroyed window) and the state is unchanged, or
the referenced live window is closed and the reference cleared. -/
theorem hideOverlay_eq (w : World) :
    ((w.overlayWindow = none ∨ ∃ i, w.overlayWindow = some i ∧ i ∈ w.destroyed) ∧
        hideOverlay w = w) ∨
    ∃ i, w.overlayWindow = some i ∧ i ∉ w.destroyed ∧
      hideOverlay w = { w with destroyed := i :: w.destroyed, overlayWindow := none } := by
  unfold hideOverlay
  cases hw : w.overlayWindow with
  | none => exact Or.inl ⟨Or.inl rfl, rfl⟩
  | some i =>
    by_cases hi : i ∈ w.destroyed
    · exact Or.inl ⟨Or.inr ⟨i, rfl, hi⟩, if_pos hi⟩
    · exact Or.inr ⟨i, rfl, hi, if_neg hi⟩

theorem hideOverlay_main (w : World) : (hideOverlay w).main = w.main := by
  rcases hideOverlay_eq w with ⟨_, he⟩ | ⟨i, _, _, he⟩ <;> rw [he]

theorem hideOverlay_nextId (w : World) : (hideOverlay w).nextId = w.nextId := by
  rcases hideOverlay_eq w with ⟨_, he⟩ | ⟨i, _, _, he⟩ <;> rw [he]

theorem hideOverlay_created (w : World) : (hideOverlay w).created = w.created := by
  rcases hideOverlay_eq w with ⟨_, he⟩ | ⟨i, _, _, he⟩ <;> rw [he]

theorem hideOverlay_timers (w : World) : (hideOverlay w).timers = w.timers := by
  rcases hideOverlay_eq w with ⟨_, he⟩ | ⟨i, _, _, he⟩ <;> rw [he]

theorem hideOverlay_destroyed_lt (w : World) (h : WF w) :
    ∀ j ∈ (hideOverlay w).destroyed, j < w.nextId := by
  intro j hj
  rcases hideOverlay_eq w with ⟨_, he⟩ | ⟨i, href, _, he⟩
  · exact h.destroyed_lt j (by rwa [he] at hj)
  · rw [he] at hj
    rcases List.mem_cons.mp hj with rfl | hj
    · exact h.ref_lt j href
    · exact h.destroyed_lt j hj

/-- After `hideOverlay` no overlay window exists: in a well-formed state the
only live window is the referenced one, and that is exactly the window
`hideOverlay` closes. -/
theorem no_live_after_hide (w : World) (h : WF w) :
    ∀ s ∈ w.created, s.id ∉ (hideOverlay w).destroyed → False := by
  intro s hs hnot
  rcases hideOverlay_eq w with ⟨hg, he⟩ | ⟨i, href, hi, he⟩
  · rw [he] at hnot
    have href2 := h.live_ref s hs hnot
    rcases hg with hg | ⟨i, hg, hid⟩
    · rw [hg] at href2; cases href2
    · rw [hg] at href2
      have : i = s.id := Option.some.inj href2
      exact hnot (this ▸ hid)
  · rw [he] at hnot
    have hsd : s.id ∉ w.destroyed := fun hd => hnot (List.mem_cons_of_mem i hd)
    have href2 := h.live_ref s hs hsd
    rw [href] at href2
    have hieq : i = s.id := Option.some.inj href2
    subst hieq
    exact hnot (List.mem_cons_self _ _)

theorem WF_hideOverlay (w : World) (h : WF w) : WF (hideOverlay w) := by
  rcases hideOverlay_eq w with ⟨_, he⟩ | ⟨i, href, hi, he⟩
  · rwa [he]
  · rw [he]
    refine ⟨h.created_lt, ?_, ?_, h.ids_nodup, ?_⟩
    · intro j hj
      rcases List.mem_cons.mp hj with rfl | hj
      · exact h.ref_lt j href
      · exact h.destroyed_lt j hj
    · intro j hj
      exact absurd hj (by simp)
    · intro s hs hnot
      have hsd : s.id ∉ w.destroyed := fun hd => hnot (List.mem_cons_of_mem i hd)
      have href2 := h.live_ref s hs hsd
      rw [href] at href2
      have hieq : i = s.id := Option.some.inj href2
      subst hieq
      exact absurd (List.mem_cons_self _ _) hnot

/-- `showAnswerOverlay` written out over the state after the embedded
`hideOverlay` call. -/
theorem showAnswerOverlay_eq (w : World) (c : String) :
    showAnswerOverlay w c =
      { main := (hideOverlay w).main,
        nextId := (hideOverlay w).nextId + 1,
        created := (hideOverlay w).created ++
          [{ id := (hideOverlay w).nextId, html := overlayHTML c }],
        destroyed := (hideOverlay w).destroyed,
        overlayWindow := some (hideOverlay w).nextId,
        timers := (hideOverlay w).timers ++ [(hideOverlay w).nextId] } := rfl

theorem WF_showAnswerOverlay (w : World) (h : WF w) (c : String) :
    WF (showAnswerOverlay w c) := by
  have h1 := WF_hideOverlay w h
  rw [showAnswerOverlay_eq]
  refine ⟨?_, ?_, ?_, ?_, ?_⟩
  · intro s hs
    simp only [List.mem_append, List.mem_singleton] at hs
    rcases hs with hs | rfl
    · exact Nat.lt_succ_of_lt (h1.created_lt s hs)
    · exact Nat.lt_succ_self _
  · intro j hj
    exact Nat.lt_succ_of_lt (h1.destroyed_lt j hj)
  · intro j hj
    have : (hideOverlay w).nextId = j := Option.some.inj hj
    exact this ▸ Nat.lt_succ_self _
  · simp only [List.map_append, List.map_cons, List.map_nil]
    rw [List.nodup_append]
    refine ⟨h1.ids_nodup, List.nodup_singleton _, ?_⟩
    intro a ha hb
    simp only [List.mem_singleton] at hb
    subst hb
    rcases List.mem_map.mp ha with ⟨s, hs, hid⟩
    exact absurd (hid ▸ h1.created_lt s hs) (Nat.lt_irrefl _)
  · intro s hs hnot
    simp only [List.mem_append, List.mem_singleton] at hs
    rcases hs with hs | rfl
    · rw [hideOverlay_created] at hs
      exact (no_live_after_hide w h s hs hnot).elim
    · rfl

theorem WF_fireTimer (w : World) (h : WF w) (k : Nat) : WF (fireTimer w k) := by
  unfold fireTimer
  by_cases hk : k ∈ w.timers
  · rw [if_pos hk]
    have h1 := WF_hideOverlay w h
    exact ⟨h1.created_lt, h1.destroyed_lt, h1.ref_lt, h1.ids_nodup, h1.live_ref⟩
  · rw [if_neg hk]
    exact h

theorem WF_setMain (w : World) (h : WF w) (m : Option Bool) :
    WF { w with main := m } :=
  ⟨h.created_lt, h.destroyed_lt, h.ref_lt, h.ids_nodup, h.live_ref⟩

theorem WF_cycle (w : World) (h : WF w) (env : CycleEnv) :
    WF (captureMCQAndShowAnswer w env).world := by
  by_cases hvis : w.main = some true
  · have h2 := WF_hideOverlay { w with main := some false } (WF_setMain w h (some false))
    cases hshot : env.screenshot with
    | error e =>
      simp only [captureMCQAndShowAnswer, hshot, if_pos hvis]
      exact h2
    | ok p =>
      cases hans : (analyzeMCQ env.analyzeEnv).answer with
      | some a =>
        simp only [captureMCQAndShowAnswer, hshot, hans, if_pos hvis]
        exact WF_setMain _ (WF_showAnswerOverlay _ h2 a) _
      | none =>
        simp only [captureMCQAndShowAnswer, hshot, hans, if_pos hvis]
        exact WF_setMain _ h2 _
  · have h2 := WF_hideOverlay w h
    cases hshot : env.screenshot with
    | error e =>
      simp only [captureMCQAndShowAnswer, hshot, if_neg hvis]
      exact h2
    | ok p =>
      cases hans : (analyzeMCQ env.analyzeEnv).answer with
      | some a =>
        simp only [captureMCQAndShowAnswer, hshot, hans, if_neg hvis]
        exact WF_showAnswerOverlay _ h2 a
      | none =>
        simp only [captureMCQAndShowAnswer, hshot, hans, if_neg hvis]
        exact h2

theorem WF_applyOp (w : World) (h : WF w) (op : Op) : WF (applyOp w op) := by
  cases op with
  | showAnswer c => exact WF_showAnswerOverlay w h c
  | hide => exact WF_hideOverlay w h
  | fire k => exact WF_fireTimer w h k
  | cycle env => exact WF_cycle w h env

theorem WF_runOps (w : World) (h : WF w) (ops : List Op) : WF (runOps w ops) := by
  induction ops generalizing w with
  | nil => exact h
  | cons op ops ih => exact ih (applyOp w op) (WF_applyOp w h op)

/-! ## Derived facts about the overlay lifecycle -/

theorem length_le_one_of_ids_eq (l : List OverlaySurface) (r : Nat)
    (hn : (l.map OverlaySurface.id).Nodup) (hall : ∀ s ∈ l, s.id = r) :
    l.length ≤ 1 := by
  match l with
  | [] => simp
  | [s] => simp
  | s :: t :: rest =>
    exfalso
    simp only [List.map_cons, List.nodup_cons] at hn
    have heq : s.id = t.id := by
      rw [hall s (by simp), hall t (by simp)]
    exact hn.1 (by rw [heq]; exact List.mem_cons_self _ _)

/-- In a well-formed state at most one overlay window exists: every live
window is the referenced one, and created ids are distinct. -/
theorem liveCount_le_one (w : World) (h : WF w) : liveCount w ≤ 1 := by
  unfold liveCount
  cases href : w.overlayWindow with
  | none =>
    have hempty : liveSurfaces w = [] := by
      rw [List.eq_nil_iff_forall_not_mem]
      intro s hs
      rcases List.mem_filter.mp hs with ⟨hsc, hdec⟩
      have hnd : s.id ∉ w.destroyed := of_decide_eq_true hdec
      have hr := h.live_ref s hsc hnd
      rw [href] at hr
      cases hr
    simp [hempty]
  | some r =>
    apply length_le_one_of_ids_eq _ r
    · exact h.ids_nodup.sublist ((List.filter_sublist _).map _)
    · intro s hs
      rcases List.mem_filter.mp hs with ⟨hsc, hdec⟩
      have hnd : s.id ∉ w.destroyed := of_decide_eq_true hdec
      have hr := h.live_ref s hsc hnd
      rw [href] at hr
      exact (Option.some.inj hr).symm

theorem find?_append_none {α : Type} (p : α → Bool) (l₁ l₂ : List α)
    (h : l₁.find? p = none) : (l₁ ++ l₂).find? p = l₂.find? p := by
  rw [List.find?_append, h, Option.none_or]

/-- After `showAnswerOverlay w c`, the window `this.overlayWindow` references
holds exactly the document built from `c`. -/
theorem currentContent_show (w : World) (h : WF w) (c : String) :
    currentContent (showAnswerOverlay w c) = some (overlayHTML c) := by
  rw [showAnswerOverlay_eq]
  simp only [currentContent]
  have hnone : (hideOverlay w).created.find?
      (fun s => s.id == (hideOverlay w).nextId) = none := by
    rw [List.find?_eq_none]
    intro s hs hbeq
    have hid : s.id = (hideOverlay w).nextId := by simpa using hbeq
    rw [hideOverlay_created] at hs
    rw [hideOverlay_nextId] at hid
    exact absurd (hid ▸ h.created_lt s hs) (Nat.lt_irrefl _)
  rw [find?_append_none _ _ _ hnone]
  simp [List.find?_cons]

/-- The window created by `showAnswerOverlay` exists afterwards; its id is
the `nextId` of the state the call started from. -/
theorem isLive_show (w : World) (h : WF w) (c : String) :
    isLive (showAnswerOverlay w c) w.nextId = true := by
  rw [showAnswerOverlay_eq]
  unfold isLive liveSurfaces
  apply decide_eq_true
  apply List.mem_map.mpr
  refine ⟨{ id := (hideOverlay w).nextId, html := overlayHTML c }, ?_, by rw [hideOverlay_nextId]⟩
  apply List.mem_filter.mpr
  refine ⟨by simp, decide_eq_true ?_⟩
  intro hmem
  have hlt := hideOverlay_destroyed_lt w h _ hmem
  rw [hideOverlay_nextId] at hlt
  exact Nat.lt_irrefl _ hlt

/-- A second `showAnswerOverlay` call closes the window the first one
created: the forced replacement destroys the older surface. -/
theorem show_show_destroys_first (w : World) (h : WF w) (c1 c2 : String) :
    w.nextId ∈ (showAnswerOverlay (showAnswerOverlay w c1) c2).destroyed := by
  show w.nextId ∈ (hideOverlay (showAnswerOverlay w c1)).destroyed
  rcases hideOverlay_eq (showAnswerOverlay w c1) with ⟨hg, _⟩ | ⟨i, href, hi, he⟩
  · exfalso
    rcases hg with hg | ⟨i, hg, hid⟩
    · exact Option.noConfusion (show some (hideOverlay w).nextId = none from hg)
    · have hgi : some (hideOverlay w).nextId = some i := hg
      have hid2 : i ∈ (hideOverlay w).destroyed := hid
      rw [← Option.some.inj hgi] at hid2
      have hlt := hideOverlay_destroyed_lt w h _ hid2
      rw [hideOverlay_nextId] at hlt
      exact Nat.lt_irrefl _ hlt
  · rw [he]
    show w.nextId ∈ i :: (showAnswerOverlay w c1).destroyed
    have hgi : some (hideOverlay w).nextId = some i := href
    rw [← Option.some.inj hgi, hideOverlay_nextId]
    exact List.mem_cons_self _ _

/-! ## Claim theorems -/

/-- **C1, counterexample.**  The claim says a cycle that resolves no answer
token still invokes the overlay display with the sentinel `"N"`.  In the
concrete cycle whose configuration has no API key (so no token is resolved),
`captureMCQAndShowAnswer` passes nothing to `showAnswerOverlay` at all — in
particular not `"N"` — and no overlay window exists afterwards. -/
theorem no_answer_cycle_shows_nothing_cex :
    (captureMCQAndShowAnswer initialWorld noKeyCycleEnv).shown = [] ∧
    "N" ∉ (captureMCQAndShowAnswer initialWorld noKeyCycleEnv).shown ∧
    liveCount (captureMCQAndShowAnswer initialWorld noKeyCycleEnv).world = 0 := by
  decide

/-- **C1, amended.**  When no answer token is resolved the cycle invokes the
overlay display not at all (lines 71–77: the `else` branch only logs to the
console), and creates no overlay window: there is no `"N"` sentinel and no
visible feedback on failure. -/
theorem cycle_without_answer_shows_no_overlay (w : World) (env : CycleEnv)
    (h : (analyzeMCQ env.analyzeEnv).answer = none) :
    (captureMCQAndShowAnswer w env).shown = [] ∧
    (captureMCQAndShowAnswer w env).world.created = w.created := by
  by_cases hvis : w.main = some true
  · cases hshot : env.screenshot with
    | error e =>
      simp only [captureMCQAndShowAnswer, hshot, if_pos hvis]
      refine ⟨by simp, ?_⟩
      show (hideOverlay { w with main := some false }).created = w.created
      rw [hideOverlay_created]
    | ok p =>
      simp only [captureMCQAndShowAnswer, hshot, h, if_pos hvis]
      refine ⟨by simp, ?_⟩
      show (hideOverlay { w with main := some false }).created = w.created
      rw [hideOverlay_created]
  · cases hshot : env.screenshot with
    | error e =>
      simp only [captureMCQAndShowAnswer, hshot, if_neg hvis]
      exact ⟨by simp, hideOverlay_created w⟩
    | ok p =>
      simp only [captureMCQAndShowAnswer, hshot, h, if_neg hvis]
      exact ⟨by simp, hideOverlay_created w⟩

/-- **C1, witness.** -/
theorem cycle_without_answer_shows_no_overlay_witness :
    (captureMCQAndShowAnswer initialWorld noKeyCycleEnv).shown = [] ∧
    (captureMCQAndShowAnswer initialWorld noKeyCycleEnv).world.created
      = initialWorld.created :=
  cycle_without_answer_shows_no_overlay initialWorld noKeyCycleEnv (by decide)

/-- **C2, counterexample.**  The claim says a reply containing a well-formed
`ANSWER: <x>` line yields `<x>` lowercased.  On the reply `"ANSWER: B"` the
extraction (a bare first-match of `/[abcdABCD1234]/`, lines 159–160) returns
`"a"` — the `A` of the keyword `ANSWER` itself — not `"b"`. -/
theorem answer_line_not_parsed_cex :
    extractAnswer "ANSWER: B" = some "a" ∧ extractAnswer "ANSWER: B" ≠ some "b" := by
  decide

/-- **C2, amended.**  Extraction ignores any `ANSWER:` keyword: it returns
the lowercase of the first character of the reply drawn from
`{A,B,C,D,a,b,c,d,1,2,3,4}`, wherever it occurs.  An `ANSWER: <x>` line
yields `<x>` only when no class character precedes it. -/
theorem extractAnswer_first_class_char (pre : String) (c : Char) (post : String)
    (hpre : ∀ a ∈ pre.data, isAnswerChar a = false) (hc : isAnswerChar c = true) :
    extractAnswer (pre ++ String.singleton c ++ post)
      = some (String.singleton c.toLower) := by
  unfold extractAnswer jsMatchAnswerClass
  have hdata : (pre ++ String.singleton c ++ post).data = pre.data ++ (c :: post.data) := by
    rw [String.data_append, String.data_append, List.append_assoc]
    rfl
  rw [hdata]
  have hnone : pre.data.find? isAnswerChar = none := by
    rw [List.find?_eq_none]
    intro x hx
    simp [hpre x hx]
  rw [find?_append_none _ _ _ hnone]
  simp [List.find?_cons, hc]

/-- **C2, witness.** -/
theorem extractAnswer_first_class_char_witness :
    extractAnswer ("xyz " ++ String.singleton 'B' ++ " rest")
      = some (String.singleton 'B'.toLower) :=
  extractAnswer_first_class_char "xyz " 'B' " rest" (by decide) (by decide)

/-- **C3, counterexample.**  The claim says a reply with no `ANSWER:` line
yields `null`.  The reply `"b"` has no `ANSWER:` line, yet extraction
returns `"b"`. -/
theorem no_answer_line_still_extracts_cex :
    extractAnswer "b" = some "b" ∧ extractAnswer "b" ≠ none := by
  decide

/-- **C3, amended.**  Extraction returns `null` exactly when the reply
contains no character of the class `{A,B,C,D,a,b,c,d,1,2,3,4}`; the presence
or absence of an `ANSWER:` line is irrelevant. -/
theorem extractAnswer_none_iff_no_class_char (s : String) :
    extractAnswer s = none ↔ ∀ c ∈ s.data, isAnswerChar c = false := by
  unfold extractAnswer jsMatchAnswerClass
  constructor
  · intro h c hc
    cases hfind : s.data.find? isAnswerChar with
    | none => exact Bool.eq_false_iff.mpr (List.find?_eq_none.mp hfind c hc)
    | some a => rw [hfind] at h; simp at h
  · intro h
    have hnone : s.data.find? isAnswerChar = none := by
      rw [List.find?_eq_none]
      intro x hx
      simp [h x hx]
    rw [hnone]

/-- **C3, witness.** -/
theorem extractAnswer_none_iff_no_class_char_witness :
    extractAnswer "xyz" = none :=
  (extractAnswer_none_iff_no_class_char "xyz").mpr (by decide)

/-- **C4.**  The overlay surface is a singleton.  From the initial state,
after any sequence of operations (shows, hides, timer firings, capture
cycles) at most one overlay window exists; `showAnswerOverlay` destroys the
prior call's window (surface `nextId` is live after the first call and
destroyed after the second) and the surviving window displays exactly the
second call's content. -/
theorem overlay_singleton_forced_replacement (ops : List Op) (c1 c2 : String) :
    liveCount (runOps initialWorld ops) ≤ 1 ∧
    isLive (showAnswerOverlay (runOps initialWorld ops) c1)
      (runOps initialWorld ops).nextId = true ∧
    (runOps initialWorld ops).nextId
      ∈ (showAnswerOverlay (showAnswerOverlay (runOps initialWorld ops) c1) c2).destroyed ∧
    currentContent (showAnswerOverlay (showAnswerOverlay (runOps initialWorld ops) c1) c2)
      = some (overlayHTML c2) ∧
    liveCount (showAnswerOverlay (showAnswerOverlay (runOps initialWorld ops) c1) c2) ≤ 1 := by
  have hW := WF_runOps initialWorld WF_initialWorld ops
  exact ⟨liveCount_le_one _ hW, isLive_show _ hW c1, show_show_destroys_first _ hW c1 c2,
    currentContent_show _ (WF_showAnswerOverlay _ hW c1) c2,
    liveCount_le_one _ (WF_showAnswerOverlay _ (WF_showAnswerOverlay _ hW c1) c2)⟩

/-- **C5, counterexample.**  The claim says a stale timer firing after a
forced replacement does not affect the surface the newer `show()` call
displays.  In the concrete two-show state, the timer armed by the first call
(tag 0) is still pending and its own surface 0 is already destroyed; the
newer surface 1 is live and referenced — yet firing the stale timer runs
`hideOverlay` (the armed callback captures only `this`) and destroys
surface 1. -/
theorem stale_timer_kills_new_overlay_cex :
    (0 ∈ staleWorld.timers ∧ 0 ∈ staleWorld.destroyed) ∧
    staleWorld.overlayWindow = some 1 ∧ isLive staleWorld 1 = true ∧
    isLive (fireTimer staleWorld 0) 1 = false := by
  decide

/-- **C5, amended.**  A stale timer firing never throws (the transition is
total), resurrects nothing (it creates no window and destroyed windows stay
destroyed), and clears the reference — but it does affect the currently
displayed surface: `hideOverlay` closes whatever window `this.overlayWindow`
references at fire time, so the newer surface is dismissed early. -/
theorem stale_timer_safe_but_hides_current (w : World) (k i : Nat)
    (hk : k ∈ w.timers) (_hstale : k ∈ w.destroyed)
    (href : w.overlayWindow = some i) (hlive : i ∉ w.destroyed) :
    (fireTimer w k).created = w.created ∧
    w.destroyed ⊆ (fireTimer w k).destroyed ∧
    (fireTimer w k).overlayWindow = none ∧
    i ∈ (fireTimer w k).destroyed := by
  unfold fireTimer
  rw [if_pos hk]
  rcases hideOverlay_eq w with ⟨hg, he⟩ | ⟨j, hrefj, hj, he⟩
  · exfalso
    rcases hg with hg | ⟨j, hg, hjd⟩
    · rw [href] at hg; cases hg
    · rw [href] at hg
      exact hlive (by rw [Option.some.inj hg]; exact hjd)
  · rw [he]
    have hji : j = i := Option.some.inj (hrefj.symm.trans href)
    subst hji
    exact ⟨rfl, fun x hx => List.mem_cons_of_mem _ hx, rfl, List.mem_cons_self _ _⟩

/-- **C5, witness.** -/
theorem stale_timer_safe_but_hides_current_witness :
    (fireTimer staleWorld 0).created = staleWorld.created ∧
    staleWorld.destroyed ⊆ (fireTimer staleWorld 0).destroyed ∧
    (fireTimer staleWorld 0).overlayWindow = none ∧
    1 ∈ (fireTimer staleWorld 0).destroyed :=
  stale_timer_safe_but_hides_current staleWorld 0 1
    (by decide) (by decide) (by decide) (by decide)

/-- **C6.**  `analyzeMCQ` never lets an exception cross its boundary: the
whole body sits in `try`/`catch` and the embedding is a total function.  On
a thrown HTTP post (transport or service error) or on an empty candidate
list in the response, the caller sees the clean `null` result. -/
theorem analyzeMCQ_transport_or_empty_yields_null (env : AnalyzeEnv)
    (h : env.network = .error () ∨ ∃ resp, env.network = .ok resp ∧ resp.candidates = []) :
    (analyzeMCQ env).answer = none := by
  cases hkey : apiKeyFalsy env.config with
  | true => simp [analyzeMCQ, hkey]
  | false =>
    cases hfile : env.fileRead with
    | error e => simp [analyzeMCQ, hkey, hfile]
    | ok d =>
      rcases h with hnet | ⟨resp, hnet, hcand⟩
      · simp [analyzeMCQ, hkey, hfile, hnet]
      · simp [analyzeMCQ, hkey, hfile, hnet, hcand]

/-- **C6, witness.** -/
theorem analyzeMCQ_transport_or_empty_yields_null_witness :
    (analyzeMCQ errNetEnv).answer = none ∧ (analyzeMCQ emptyCandEnv).answer = none :=
  ⟨analyzeMCQ_transport_or_empty_yields_null errNetEnv (Or.inl rfl),
   analyzeMCQ_transport_or_empty_yields_null emptyCandEnv
     (Or.inr ⟨{ candidates := [] }, rfl, rfl⟩)⟩

/-- **C7.**  With a falsy credential (`!config.apiKey`, line 96) analysis
fails fast: it returns `null` and control never reaches the HTTP post, so no
network request is attempted; the early return means nothing is thrown. -/
theorem analyzeMCQ_missing_credential (env : AnalyzeEnv)
    (h : apiKeyFalsy env.config = true) :
    (analyzeMCQ env).answer = none ∧ (analyzeMCQ env).networkCalled = false := by
  simp [analyzeMCQ, h]

/-- **C7, witness.** -/
theorem analyzeMCQ_missing_credential_witness :
    (analyzeMCQ noKeyEnv).answer = none ∧ (analyzeMCQ noKeyEnv).networkCalled = false :=
  analyzeMCQ_missing_credential noKeyEnv (by decide)

/-- **C8, counterexample.**  The claim says every received raw reply —
including the literal `"NO_MCQ"` — is written to a timestamped file in a log
directory.  In the concrete call that receives exactly `"NO_MCQ"`, the reply
is received (it is printed by `console.log`, line 152) but `analyzeMCQ`
performs no file write whatsoever. -/
theorem no_diagnostic_file_cex :
    (analyzeMCQ (happyEnv "NO_MCQ")).consoleReply = some "NO_MCQ" ∧
    (analyzeMCQ (happyEnv "NO_MCQ")).fileWrites = [] := by
  decide

/-- **C8, amended.**  No call of `analyzeMCQ` writes any file: there is no
diagnostic log in the source.  Whenever a raw reply is received it is only
printed to the console (line 152); since no write exists, no write failure
can abort the cycle. -/
theorem reply_logged_to_console_only (env : AnalyzeEnv) :
    (analyzeMCQ env).fileWrites = [] ∧
    (analyzeMCQ env).consoleReply = receivedReply env := by
  cases hkey : apiKeyFalsy env.config with
  | true => simp [analyzeMCQ, receivedReply, hkey]
  | false =>
    cases hfile : env.fileRead with
    | error e => simp [analyzeMCQ, receivedReply, hkey, hfile]
    | ok d =>
      cases hnet : env.network with
      | error e => simp [analyzeMCQ, receivedReply, hkey, hfile, hnet]
      | ok resp =>
        cases hcand : resp.candidates with
        | nil => simp [analyzeMCQ, receivedReply, hkey, hfile, hnet, hcand]
        | cons cand rest =>
          cases hparts : cand.content.parts with
          | nil => simp [analyzeMCQ, receivedReply, hkey, hfile, hnet, hcand, hparts]
          | cons part prest =>
            by_cases hmcq : jsTrim part.text = "NO_MCQ" <;>
              simp [analyzeMCQ, receivedReply, hkey, hfile, hnet, hcand, hparts, hmcq]

/-- **C9.**  If the screenshot step throws after the main window was hidden,
the top-level `catch` (lines 84–86) only logs: the restore at lines 80–82 is
skipped, so the main window stays hidden when the cycle completes, and
nothing is shown. -/
theorem screenshot_failure_leaves_main_hidden (w : World) (env : CycleEnv)
    (hvis : w.main = some true) (hshot : env.screenshot = .error ()) :
    (captureMCQAndShowAnswer w env).world.main = some false ∧
    (captureMCQAndShowAnswer w env).caughtError = true ∧
    (captureMCQAndShowAnswer w env).shown = [] := by
  simp only [captureMCQAndShowAnswer, hshot, if_pos hvis]
  refine ⟨?_, by simp, by simp⟩
  show (hideOverlay { w with main := some false }).main = some false
  rw [hideOverlay_main]

/-- **C9, witness.** -/
theorem screenshot_failure_leaves_main_hidden_witness :
    (captureMCQAndShowAnswer initialWorld errShotEnv).world.main = some false ∧
    (captureMCQAndShowAnswer initialWorld errShotEnv).caughtError = true ∧
    (captureMCQAndShowAnswer initialWorld errShotEnv).shown = [] :=
  screenshot_failure_leaves_main_hidden initialWorld errShotEnv rfl rfl

/-- **C10.**  For every normalized token `showAnswerOverlay` can receive from
`analyzeMCQ` (the lowercased class characters), the window it creates holds
the document built from the token, and the text rendered between the
answer-div tags of that document is the token uppercased
(`${answer.toUpperCase()}`, line 345). -/
theorem overlay_renders_uppercase_token (ops : List Op) (t : String)
    (ht : t ∈ ["a", "b", "c", "d", "1", "2", "3", "4"]) :
    currentContent (showAnswerOverlay (runOps initialWorld ops) t) = some (overlayHTML t) ∧
    renderedAnswer (overlayHTML t) = some (jsToUpper t) := by
  have hW := WF_runOps initialWorld WF_initialWorld ops
  refine ⟨currentContent_show _ hW t, ?_⟩
  fin_cases ht <;> decide

/-- **C10, witness.** -/
theorem overlay_renders_uppercase_token_witness :
    currentContent (showAnswerOverlay (runOps initialWorld []) "b") = some (overlayHTML "b") ∧
    renderedAnswer (overlayHTML "b") = some (jsToUpper "b") :=
  overlay_renders_uppercase_token [] "b" (by decide)

end MCQHelper
